import Mathlib

/-!
Verification development for the Bronze-tier task pipeline
(src/Bronze/orchestrator.py and src/Bronze/filesystem_watcher.py).

The Python code is shallowly embedded: text is `List Char`, the regular
expressions used by the code are embedded as explicit scanners with the
same matching semantics (leftmost match, greedy/lazy quantifiers and
backtracking where it can change the outcome), floats that only ever hold
decimal amounts or timestamps are embedded as `Rat`, and the stateful
watcher/orchestrator loops are embedded as explicit state-passing
functions.  Lowercasing and character classes are modelled on ASCII, which
covers the text the system ingests.
-/

namespace Bronze

/-- Python regex word character over ASCII: letters, digits, underscore. -/
def isWordChar (c : Char) : Bool :=
  c.isAlphanum || c == '_'

/-- Python regex whitespace over ASCII: the class matched by backslash-s. -/
def isPySpace (c : Char) : Bool :=
  c == ' ' || c == '\t' || c == '\n' || c == '\r' || c == '\x0b' || c == '\x0c'

/-- ASCII lowering of a text, embedding content.lower() at line 58 of
orchestrator.py for the ASCII inputs the system handles. -/
def toLowerList (cs : List Char) : List Char :=
  cs.map Char.toLower

/-- Does the literal `lit` occur at the head of `cs`? -/
def litAt : List Char → List Char → Bool
  | _, [] => true
  | [], _ :: _ => false
  | c :: cs, d :: ds => c == d && litAt cs ds

/-- Case-insensitive variant of `litAt`(the literal is given lowercased). -/
def ciLitAt : List Char → List Char → Bool
  | _, [] => true
  | [], _ :: _ => false
  | c :: cs, d :: ds => c.toLower == d && ciLitAt cs ds

/-- A word boundary sits between the end of a keyword and `rest`:
`rest` is empty or starts with a non-word character. -/
def boundaryHead : List Char → Bool
  | [] => true
  | c :: _ => !isWordChar c

/-- The keyword `kw` (whose first and last characters are word characters)
matches at the head of `s` with a closing word boundary. -/
def matchKwAt (s : List Char) (kw : List Char) : Bool :=
  litAt s kw && boundaryHead (s.drop kw.length)

/-- Scanner for re.search of a word-bounded keyword alternation:
`prevIsWord` records whether the character before the current position is a
word character (false at the start of the text). -/
def kwSearchFrom (kws : List (List Char)) (prevIsWord : Bool) : List Char → Bool
  | [] => false
  | c :: cs =>
    ((!prevIsWord) && kws.any (fun kw => matchKwAt (c :: cs) kw)) ||
      kwSearchFrom kws (isWordChar c) cs

/-- re.search of a word-bounded keyword alternation over the whole text. -/
def kwSearch (kws : List (List Char)) (cs : List Char) : Bool :=
  kwSearchFrom kws false cs

/-- Tail matcher for an alternative of the form `a.*b`: from the current
position, either `b` matches here (with closing word boundary) or the dot
consumes one non-newline character. -/
def dotStarTail (b : List Char) : List Char → Bool
  | [] => matchKwAt [] b
  | c :: cs => matchKwAt (c :: cs) b || (c != '\n' && dotStarTail b cs)

/-- Scanner for a word-bounded `a.*b` alternative of re.search. -/
def dotStarFrom (a b : List Char) (prevIsWord : Bool) : List Char → Bool
  | [] => false
  | c :: cs =>
    ((!prevIsWord) && litAt (c :: cs) a && dotStarTail b ((c :: cs).drop a.length)) ||
      dotStarFrom a b (isWordChar c) cs

/-- re.search of a word-bounded `a.*b` alternative over the whole text. -/
def dotStarSearch (a b : List Char) (cs : List Char) : Bool :=
  dotStarFrom a b false cs

/-- Embeds the orchestrator.py line 61 search on the lowercased content. -/
def emailReplyMatch (lower : List Char) : Bool :=
  kwSearch [[ 'r','e','p','l','y' ], [ 'r','e','s','p','o','n','d' ]] lower ||
    dotStarSearch [ 'd','r','a','f','t' ] [ 'e','m','a','i','l' ] lower ||
    dotStarSearch [ 'e','m','a','i','l' ] [ 'r','e','s','p','o','n','s','e' ] lower

/-- Embeds the orchestrator.py line 79 search on the lowercased content. -/
def paymentKwMatch (lower : List Char) : Bool :=
  kwSearch
    [[ 'i','n','v','o','i','c','e' ], [ 'p','a','y','m','e','n','t' ], [ 'p','a','y' ],
     [ 't','r','a','n','s','f','e','r' ], [ 'a','m','o','u','n','t',' ','d','u','e' ]] lower

/-- Embeds the orchestrator.py line 107 search on the lowercased content. -/
def extractKwMatch (lower : List Char) : Bool :=
  kwSearch
    [[ 'e','x','t','r','a','c','t' ], [ 'p','a','r','s','e' ],
     [ 'a','n','a','l','y','z','e' ], [ 's','u','m','m','a','r','i','z','e' ]] lower

/-- Split the maximal digit prefix off a text. -/
def takeDigits : List Char → List Char × List Char
  | [] => ([], [])
  | c :: cs =>
    if c.isDigit then
      let (ds, r) := takeDigits cs
      (c :: ds, r)
    else ([], c :: cs)

/-- One attempted match of the amount pattern of orchestrator.py line 85
(optional dollar sign, one or more digits, optionally a dot and exactly two
digits) at the current position; returns the captured text and the rest of
the input after the match. -/
def matchAmountAt (cs : List Char) : Option (List Char × List Char) :=
  let cs1 := match cs with
    | '$' :: r => r
    | _ => cs
  match takeDigits cs1 with
  | ([], _) => none
  | (d :: ds, r) =>
    match r with
    | '.' :: e1 :: e2 :: r2 =>
      if e1.isDigit && e2.isDigit then
        some ((d :: ds) ++ ('.' :: e1 :: e2 :: []), r2)
      else
        some (d :: ds, r)
    | _ => some (d :: ds, r)

/-- Fuelled loop of re.findall for the amount pattern: non-overlapping
matches scanned left to right. -/
def findAmountsGo : Nat → List Char → List (List Char)
  | 0, _ => []
  | _ + 1, [] => []
  | fuel + 1, c :: cs =>
    match matchAmountAt (c :: cs) with
    | some (cap, rest) => cap :: findAmountsGo fuel rest
    | none => findAmountsGo fuel cs

/-- Embeds re.findall of the amount pattern at orchestrator.py line 85. -/
def findAmounts (cs : List Char) : List (List Char) :=
  findAmountsGo cs.length cs

/-- Decimal digits to a natural number. -/
def digitsToNat (cs : List Char) : Nat :=
  cs.foldl (fun n c => 10 * n + (c.toNat - 48)) 0

/-- Value of a captured amount (digits with an optional two-digit cents
part), embedding float(amounts[0]) at orchestrator.py line 87 as an exact
rational; the only comparison the code performs on the float (against 500)
agrees with the rational one on every such decimal literal. -/
def ratOfAmount (cs : List Char) : ℚ :=
  match cs.span (fun c => c != '.') with
  | (ip, []) => (digitsToNat ip : ℚ)
  | (ip, _ :: fp) => (digitsToNat ip : ℚ) + (digitsToNat fp : ℚ) / 100

/-- Length of the maximal whitespace prefix. -/
def wsRun : List Char → Nat
  | [] => 0
  | c :: cs => if isPySpace c then wsRun cs + 1 else 0

/-- Greedy capture of one-or-more non-newline characters, the `([^\n]+)`
and `(.+)` groups of orchestrator.py; fails on an empty line remainder. -/
def capLine : List Char → Option (List Char)
  | [] => none
  | c :: cs => if c == '\n' then none else some (c :: cs.takeWhile (fun d => d != '\n'))

/-- Backtracking loop for a greedy whitespace run followed by a line
capture: the engine first tries the maximal run, then shorter ones. -/
def wsCapGo (r : List Char) : Nat → Option (List Char)
  | 0 => capLine r
  | k + 1 => (capLine (r.drop (k + 1))).orElse (fun _ => wsCapGo r k)

/-- Matches whitespace-star followed by a line capture with backtracking. -/
def wsCap (r : List Char) : Option (List Char) :=
  wsCapGo r (wsRun r)

/-- Matches optional-colon, whitespace-star, line capture (the greedy `:?`
tries the colon branch first). -/
def colonWsCap (r : List Char) : Option (List Char) :=
  match r with
  | ':' :: r2 => (wsCap r2).orElse (fun _ => wsCap (':' :: r2))
  | _ => wsCap r

/-- Backtracking loop for the leading whitespace-star of the vendor tail. -/
def vendorTailGo (r : List Char) : Nat → Option (List Char)
  | 0 => colonWsCap r
  | k + 1 => (colonWsCap (r.drop (k + 1))).orElse (fun _ => vendorTailGo r k)

/-- Tail of the vendor pattern of orchestrator.py line 102 after the
keyword: whitespace-star, optional colon, whitespace-star, line capture. -/
def vendorTail (r : List Char) : Option (List Char) :=
  vendorTailGo r (wsRun r)

/-- Leftmost re.search for the vendor pattern: at each position the
`from` branch is tried before the `vendor` branch; the result is group(1)
or group(2), i.e. the captured rest of line. -/
def vendorSearch : List Char → Option (List Char)
  | [] => none
  | c :: cs =>
    if ciLitAt (c :: cs) [ 'f','r','o','m' ] then
      match vendorTail ((c :: cs).drop 4) with
      | some cap => some cap
      | none =>
        if ciLitAt (c :: cs) [ 'v','e','n','d','o','r' ] then
          match vendorTail ((c :: cs).drop 6) with
          | some cap => some cap
          | none => vendorSearch cs
        else vendorSearch cs
    else if ciLitAt (c :: cs) [ 'v','e','n','d','o','r' ] then
      match vendorTail ((c :: cs).drop 6) with
      | some cap => some cap
      | none => vendorSearch cs
    else vendorSearch cs

/-- Run of characters in the invoice-number class `[A-Z0-9-]` under
re.IGNORECASE, i.e. ASCII letters, digits and hyphen. -/
def isInvChar (c : Char) : Bool :=
  c.isAlphanum || c == '-'

/-- Tail of the invoice pattern of orchestrator.py line 97 after the
keyword: whitespace-star, optional hash, whitespace-star, then a nonempty
class run.  The class is disjoint from whitespace and from the hash, so
maximal munch coincides with the backtracking search. -/
def invoiceTail (r : List Char) : Option (List Char) :=
  let r1 := r.drop (wsRun r)
  let r2 := match r1 with
    | '#' :: t => t
    | _ => r1
  let r3 := r2.drop (wsRun r2)
  match r3.takeWhile isInvChar with
  | [] => none
  | d :: ds => some (d :: ds)

/-- Leftmost re.search for the invoice-number pattern (case-insensitive
literal `invoice`, then `invoiceTail`). -/
def invoiceSearch : List Char → Option (List Char)
  | [] => none
  | c :: cs =>
    if ciLitAt (c :: cs) [ 'i','n','v','o','i','c','e' ] then
      match invoiceTail ((c :: cs).drop 7) with
      | some cap => some cap
      | none => invoiceSearch cs
    else invoiceSearch cs

/-- Character class of the email pattern of orchestrator.py line 69:
word characters, dot and hyphen. -/
def isEmailChar (c : Char) : Bool :=
  isWordChar c || c == '.' || c == '-'

/-- One attempted match of the email pattern at the current position:
a nonempty class run, an at sign, a nonempty class run.  The class does
not contain the at sign, so maximal munch is exact. -/
def matchEmailAt (cs : List Char) : Option (List Char) :=
  match cs.span isEmailChar with
  | ([], _) => none
  | (l :: ls, rest) =>
    match rest with
    | '@' :: r2 =>
      match r2.span isEmailChar with
      | ([], _) => none
      | (d :: ds, _) => some ((l :: ls) ++ '@' :: d :: ds)
    | _ => none

/-- First match of the email pattern (the code only uses emails[0]). -/
def firstEmail : List Char → Option (List Char)
  | [] => none
  | c :: cs =>
    match matchEmailAt (c :: cs) with
    | some cap => some cap
    | none => firstEmail cs

/-- Leftmost re.search for the subject pattern of orchestrator.py line 74:
case-insensitive literal `Subject:` then whitespace-star and a lazy
one-or-more capture closed by a newline or the end of input, which captures
exactly the remainder of the line. -/
def subjectSearch : List Char → Option (List Char)
  | [] => none
  | c :: cs =>
    if ciLitAt (c :: cs) [ 's','u','b','j','e','c','t',':' ] then
      match wsCap ((c :: cs).drop 8) with
      | some cap => some cap
      | none => subjectSearch cs
    else subjectSearch cs

/-- Python str.strip() on ASCII whitespace. -/
def pyStrip (cs : List Char) : List Char :=
  ((cs.dropWhile isPySpace).reverse.dropWhile isPySpace).reverse

/-- Leftmost re.search for a frontmatter field pattern such as
`source_path:\s*(.+)` (case-sensitive literal key including the colon,
whitespace-star with backtracking, then a nonempty line capture). -/
def keyLineSearch (key : List Char) : List Char → Option (List Char)
  | [] => none
  | c :: cs =>
    if litAt (c :: cs) key then
      match wsCap ((c :: cs).drop key.length) with
      | some cap => some cap
      | none => keyLineSearch key cs
    else keyLineSearch key cs

/-- Reason attached to the approval flag; the source formats these as
strings, which the pipeline never inspects again, so they are embedded
structurally. -/
inductive ApprovalReason
  | emailPolicy
  | exceedsThreshold (amount : ℚ)
deriving DecidableEq, Repr

/-- Result record of analyze_intent (orchestrator.py lines 48 to 56); the
entities dictionary with its five fixed keys is embedded as five optional
fields. -/
structure IntentResult where
  intent : String
  confidence : ℚ
  priority : String
  category : String
  sender : Option (List Char)
  subject : Option (List Char)
  amount : Option ℚ
  invoiceNumber : Option (List Char)
  vendor : Option (List Char)
  requiresApproval : Bool
  approvalReason : Option ApprovalReason
deriving DecidableEq, Repr

/-- The default result the classifier starts from. -/
def defaultResult : IntentResult :=
  { intent := "unknown", confidence := 0, priority := "medium", category := "other",
    sender := none, subject := none, amount := none, invoiceNumber := none,
    vendor := none, requiresApproval := false, approvalReason := none }

/-- Embeds analyze_intent (orchestrator.py lines 45 to 112): ordered rule
evaluation on the lowercased content, with entity extraction per branch on
the original content. -/
def analyze_intent (content : List Char) : IntentResult :=
  let lower := toLowerList content
  if emailReplyMatch lower then
    { defaultResult with
        intent := "email_draft", category := "communication", confidence := 8/10,
        requiresApproval := true, approvalReason := some .emailPolicy,
        sender := firstEmail content,
        subject := (subjectSearch content).map pyStrip }
  else if paymentKwMatch lower then
    let base :=
      { defaultResult with
          intent := "payment_request", category := "finance", confidence := 9/10,
          invoiceNumber := invoiceSearch content,
          vendor := vendorSearch content }
    match (findAmounts content).head? with
    | none => base
    | some cap =>
      let amount := ratOfAmount cap
      if 500 < amount then
        { base with
            amount := some amount, requiresApproval := true,
            approvalReason := some (.exceedsThreshold amount), priority := "high" }
      else
        { base with amount := some amount }
  else if extractKwMatch lower then
    { defaultResult with
        intent := "data_extraction", category := "admin", confidence := 7/10 }
  else
    defaultResult

/-- The text of end-to-end scenario A. -/
def scenarioA : List Char :=
  ( "Invoice #INV-2024 from Acme Corp for $750.00" ).toList

/-!
Orchestrator effect model.  process_task_file (orchestrator.py lines 632
to 784) is embedded as a pure function from a task input and the dry_run
flag to the filesystem effects it performs, the activity-log records it
appends (log_activity, lines 498 to 529) and the error-log records it
appends (log_error, lines 486 to 495).  Writes of the log files themselves
are the logging channel and are represented by the returned records; the
mkdir calls the code performs on the way are represented as effects.
-/

/-- A filesystem mutation performed by the pipeline (other than appending
to the log files, which is represented separately as log records). -/
inductive FsEffect
  | mkdir (folder : String)
  | writeDoc (folder : String) (kind : String)
  | moveDoc (dstFolder : String) (kind : String)
  | copyDoc (dstFolder : String)
deriving DecidableEq, Repr

/-- One record of the daily activity log (timestamp and echoed details
omitted; they are identical across modes for a given task). -/
structure ActivityEntry where
  action : String
  status : String
deriving DecidableEq, Repr

/-- One record of the error log. -/
inductive ErrEntry
  | readTaskFailed
  | taskException
deriving DecidableEq, Repr

/-- Input of one process_task_file call: whether the task document still
exists, its content, whether the glob for the original dropped file finds
one, that file content, and whether the environment raises an exception
during the per-task step sequence (caught at line 780). -/
structure TaskInput where
  present : Bool
  content : List Char
  sourcePresent : Bool
  sourceContent : List Char
  raises : Bool
deriving DecidableEq, Repr

/-- Effects of write_file (orchestrator.py lines 146 to 166): the parent
mkdir happens before the dry_run test, the document write only happens
live. -/
def write_file_effects (dry : Bool) (folder kind : String) : List FsEffect :=
  if dry then [.mkdir folder] else [.mkdir folder, .writeDoc folder kind]

/-- Is true when the task frontmatter carries a source_path field: the
search at orchestrator.py line 652 succeeds and the stripped capture is
nonempty (an all-whitespace capture strips to the empty string, which is
falsy at line 655 and at the line 662 branch). -/
def hasSourcePath (content : List Char) : Bool :=
  match keyLineSearch (( "source_path:" ).toList) content with
  | some cap => !(pyStrip cap).isEmpty
  | none => false

/-- Embeds process_task_file: read, frontmatter extraction, source lookup,
intent analysis, skill dispatch, activity logging and archival, returning
the triple of filesystem effects, activity records and error records
(log_error and log_activity both make the Logs folder on the way, line 488
and line 500, recorded as mkdir effects). -/
def process_task_file (dry : Bool) (t : TaskInput) :
    List FsEffect × List ActivityEntry × List ErrEntry :=
  if !t.present then
    ([FsEffect.mkdir "Logs"], [], [.readTaskFailed])
  else if t.raises then
    ([FsEffect.mkdir "Logs"], [], [.taskException])
  else
    let srcContent :=
      if hasSourcePath t.content && t.sourcePresent then t.sourceContent else []
    let analysis := analyze_intent (t.content ++ '\n' :: srcContent)
    let skillEffects :=
      if analysis.intent == "email_draft" then
        write_file_effects dry "Pending_Approval" "email_draft"
      else if analysis.intent == "payment_request" then
        write_file_effects dry "Plans" "plan" ++
          write_file_effects dry "Pending_Approval" "email_draft"
      else if analysis.intent == "data_extraction" then
        (if dry then [] else [.writeDoc "Logs" "extraction"]) ++
          write_file_effects dry "Plans" "plan"
      else
        write_file_effects dry "Plans" "plan"
    let archiveEffects :=
      if dry then []
      else
        [.moveDoc "Done" "task"] ++
          (if hasSourcePath t.content && t.sourcePresent then
            [FsEffect.moveDoc "Done" "source"] else []) ++
          [FsEffect.mkdir "Logs"]
    let archiveLog : List ActivityEntry :=
      if dry then [] else [{ action := "task_archived", status := "moved_to_done" }]
    ([FsEffect.mkdir "Logs"] ++ skillEffects ++ [FsEffect.mkdir "Logs"] ++ archiveEffects,
     [{ action := "intent_analyzed", status := analysis.intent },
      { action := "task_processed", status := "completed" }] ++ archiveLog,
     [])

/-- One scan of scan_and_process (orchestrator.py lines 787 to 803): each
pending task is processed to completion before the next. -/
def scanOutcomes (dry : Bool) (ts : List TaskInput) :
    List (List FsEffect × List ActivityEntry × List ErrEntry) :=
  ts.map (process_task_file dry)

/-- Is this effect a file creation, move or copy (as opposed to a mkdir)? -/
def isFileMutation : FsEffect → Bool
  | .mkdir _ => false
  | _ => true

/-- Is this effect a mkdir? -/
def isMkdirEffect : FsEffect → Bool
  | .mkdir _ => true
  | _ => false

/-!
Watcher model.  FileDropHandler and the polling loop of
filesystem_watcher.py are embedded as a step function over an explicit
state: the PROCESSED_FILES fingerprint set (line 43) and the per-path
debounce timestamps (line 61).  The fingerprint string built at line 111
is determined by the triple of path, size and modification time (the size
and time contain no underscore, so the triple can be recovered from the
string); it is embedded as that triple.  An event carries the observed
file metadata plus the environment facts the handler consults: whether the
file still exists after the settle delay and whether an I/O call raises.
-/

/-- Kind of a raw filesystem event presented to the detector. -/
inductive EventKind
  | created
  | modified
  | moved
  | poll
deriving DecidableEq, Repr

/-- Injected I/O failure point inside process_file: the stat at line 111,
the task write at line 170, or the copy at line 176. -/
inductive FailPoint
  | statCall
  | writeCall
  | copyCall
deriving DecidableEq, Repr

/-- A raw event with the environment facts consulted while handling it.
The file metadata is assumed stable across the settle delay, matching the
premise of the deduplication claims. -/
structure FileEvent where
  kind : EventKind
  path : String
  size : Nat
  mtime : ℚ
  time : ℚ
  existsAtSettle : Bool
  failAt : Option FailPoint
deriving DecidableEq, Repr

/-- Fingerprint of an event, embedding the key of line 111. -/
def keyOf (e : FileEvent) : String × Nat × ℚ :=
  (e.path, e.size, e.mtime)

/-- In-memory state of the watcher process. -/
structure WatcherState where
  processed : List (String × Nat × ℚ)
  fileTimers : List (String × ℚ)
deriving DecidableEq, Repr

/-- Outcome of one process_file call. -/
inductive ProcessOut
  | ignored
  | statError
  | skipped
  | disappeared
  | empty
  | writeError
  | copyError
  | created
deriving DecidableEq, Repr

/-- Final path component, as pathlib computes it. -/
def lastComponent (cs : List Char) : List Char :=
  cs.foldl (fun acc c => if c == '/' then [] else acc ++ [c]) []

/-- Index of the last dot of a name, if any. -/
def lastDotIdx (name : List Char) : Option Nat :=
  ((List.range name.length).filter (fun i => name.getD i ' ' == '.')).getLast?

/-- pathlib suffix of a path: the extension of the final component, empty
unless the last dot is at an inner position of the name. -/
def pathSuffix (path : String) : List Char :=
  let name := lastComponent path.toList
  match lastDotIdx name with
  | some i => if 0 < i && i + 1 < name.length then name.drop i else []
  | none => []

/-- The SUPPORTED_EXTENSIONS set of filesystem_watcher.py line 42. -/
def supportedExts : List (List Char) :=
  [( ".txt" ).toList, ( ".pdf" ).toList, ( ".doc" ).toList,
   ( ".docx" ).toList, ( ".md" ).toList]

/-- The extension test applied at lines 81, 106, 219 and 278. -/
def suffixSupported (path : String) : Bool :=
  supportedExts.contains (toLowerList (pathSuffix path))

/-- Embeds FileDropHandler.process_file (filesystem_watcher.py lines 102
to 207): extension filter, stat and dedup test, settle delay and existence
recheck, empty-file guard, dry-run or live task creation, and only then
the fingerprint insertion; any raised exception is caught at line 196 and
leaves the fingerprint set unchanged. -/
def process_file (dry : Bool) (s : WatcherState) (e : FileEvent) :
    WatcherState × ProcessOut :=
  if !suffixSupported e.path then (s, .ignored)
  else if e.failAt == some .statCall then (s, .statError)
  else if s.processed.contains (keyOf e) then (s, .skipped)
  else if !e.existsAtSettle then (s, .disappeared)
  else if e.size == 0 then (s, .empty)
  else if dry then
    ({ s with processed := keyOf e :: s.processed }, .created)
  else if e.failAt == some .writeCall then (s, .writeError)
  else if e.failAt == some .copyCall then (s, .copyError)
  else
    ({ s with processed := keyOf e :: s.processed }, .created)

/-- Wraps a process_file call as a worked step (its outcome marked some). -/
def runPF (dry : Bool) (s : WatcherState) (e : FileEvent) :
    WatcherState × Option ProcessOut :=
  ((process_file dry s e).1, some (process_file dry s e).2)

/-- Dispatch of one raw event: on_created and on_moved call process_file
directly; on_modified (lines 73 to 91) filters the extension, applies the
two-second debounce against the per-path timer and records the trigger
time before processing; the poll loop (lines 277 to 285) filters the
extension and the fingerprint set before calling process_file, swallowing
a stat failure.  Returns the worked outcome, or none when the event was
filtered before reaching process_file. -/
def handle_event (dry : Bool) (s : WatcherState) (e : FileEvent) :
    WatcherState × Option ProcessOut :=
  match e.kind with
  | .created => runPF dry s e
  | .moved => runPF dry s e
  | .modified =>
    if !suffixSupported e.path then (s, none)
    else if 2 < e.time - (s.fileTimers.lookup e.path).getD 0 then
      runPF dry { s with fileTimers := (e.path, e.time) :: s.fileTimers } e
    else (s, none)
  | .poll =>
    if !suffixSupported e.path then (s, none)
    else if e.failAt == some .statCall then (s, none)
    else if s.processed.contains (keyOf e) then (s, none)
    else runPF dry s e

/-- Sequential run of the detector over a list of raw events. -/
def runEvents (dry : Bool) (s : WatcherState) :
    List FileEvent → WatcherState × List (Option ProcessOut)
  | [] => (s, [])
  | e :: es =>
    ((runEvents dry (handle_event dry s e).1 es).1,
     (handle_event dry s e).2 :: (runEvents dry (handle_event dry s e).1 es).2)

/-- Number of task documents created by a run (in live mode, exactly the
created outcomes; a copy failure also leaves a written task document and
is excluded by the no-failure premise of the deduplication claim). -/
def createdCount (os : List (Option ProcessOut)) : Nat :=
  os.countP (fun o => decide (o = some .created))

/-- Filesystem effects of one process_file outcome (lines 166 to 177):
live task-document write and source copy; nothing in dry-run mode. -/
def process_file_effects (dry : Bool) (o : ProcessOut) : List FsEffect :=
  match o with
  | .created =>
    if dry then [] else [.writeDoc "Needs_Action" "task", .copyDoc "Needs_Action"]
  | .copyError => if dry then [] else [.writeDoc "Needs_Action" "task"]
  | _ => []

/-!
Helper lemmas about the watcher step function, shared by the theorems
below.
-/

/-- process_file touches the fingerprint set exactly on a created outcome,
where it inserts the event fingerprint. -/
theorem process_file_processed (dry : Bool) (s : WatcherState) (e : FileEvent) :
    (process_file dry s e).1.processed =
      (if (process_file dry s e).2 = .created then keyOf e :: s.processed
       else s.processed) := by
  unfold process_file
  split_ifs <;> simp_all

/-- process_file never touches the debounce timers. -/
theorem process_file_timers (dry : Bool) (s : WatcherState) (e : FileEvent) :
    (process_file dry s e).1.fileTimers = s.fileTimers := by
  unfold process_file
  split_ifs <;> rfl

/-- An event whose fingerprint is already processed is never worked into a
created outcome by process_file. -/
theorem process_file_no_create (dry : Bool) (s : WatcherState)
    (e : FileEvent) (h : s.processed.contains (keyOf e) = true) :
    (process_file dry s e).2 ≠ .created := by
  unfold process_file
  split_ifs <;> simp_all

/-- Same statement lifted through runPF, for any state sharing the
fingerprint set. -/
theorem runPF_processed (dry : Bool) (s : WatcherState) (e : FileEvent) :
    (runPF dry s e).1.processed =
      (if (runPF dry s e).2 = some .created then keyOf e :: s.processed
       else s.processed) := by
  unfold runPF
  rw [process_file_processed]
  simp

/-- handle_event touches the fingerprint set exactly on a created outcome,
where it inserts the event fingerprint. -/
theorem handle_event_processed (dry : Bool) (s : WatcherState) (e : FileEvent) :
    (handle_event dry s e).1.processed =
      (if (handle_event dry s e).2 = some .created then keyOf e :: s.processed
       else s.processed) := by
  obtain ⟨k, p, sz, mt, tm, ex, fa⟩ := e
  cases k <;> simp only [handle_event]
  case created => exact runPF_processed dry s _
  case moved => exact runPF_processed dry s _
  case modified =>
    by_cases h1 : (!suffixSupported p) = true
    · simp only [if_pos h1]; simp
    · simp only [if_neg h1]
      by_cases h2 : 2 < tm - (List.lookup p s.fileTimers).getD 0
      · simp only [if_pos h2]; exact runPF_processed dry _ _
      · simp only [if_neg h2]; simp
  case poll =>
    by_cases h1 : (!suffixSupported p) = true
    · simp only [if_pos h1]; simp
    · simp only [if_neg h1]
      by_cases h2 : (fa == some FailPoint.statCall) = true
      · simp only [if_pos h2]; simp
      · simp only [if_neg h2]
        by_cases h3 : s.processed.contains (p, sz, mt) = true
        · simp only [keyOf, if_pos h3]; simp
        · simp only [keyOf, if_neg h3]; exact runPF_processed dry s _

/-- An event whose fingerprint is already processed never yields a created
outcome. -/
theorem handle_event_no_create_of_processed (dry : Bool) (s : WatcherState)
    (e : FileEvent) (h : s.processed.contains (keyOf e) = true) :
    (handle_event dry s e).2 ≠ some .created := by
  obtain ⟨k, p, sz, mt, tm, ex, fa⟩ := e
  cases k <;> simp only [handle_event]
  case created =>
    unfold runPF
    simpa using process_file_no_create dry s _ h
  case moved =>
    unfold runPF
    simpa using process_file_no_create dry s _ h
  case modified =>
    by_cases h1 : (!suffixSupported p) = true
    · simp only [if_pos h1]; simp
    · simp only [if_neg h1]
      by_cases h2 : 2 < tm - (List.lookup p s.fileTimers).getD 0
      · simp only [if_pos h2]
        unfold runPF
        simpa using
          process_file_no_create dry
            { processed := s.processed, fileTimers := (p, tm) :: s.fileTimers } _ h
      · simp only [if_neg h2]; simp
  case poll =>
    by_cases h1 : (!suffixSupported p) = true
    · simp only [if_pos h1]; simp
    · simp only [if_neg h1]
      by_cases h2 : (fa == some FailPoint.statCall) = true
      · simp only [if_pos h2]; simp
      · simp only [if_neg h2]
        by_cases h3 : s.processed.contains (p, sz, mt) = true
        · simp only [keyOf, if_pos h3]; simp
        · exact absurd h h3

/-- The fingerprint set only grows along a step. -/
theorem handle_event_contains_mono (dry : Bool) (s : WatcherState)
    (e : FileEvent) (k : String × Nat × ℚ)
    (h : s.processed.contains k = true) :
    (handle_event dry s e).1.processed.contains k = true := by
  rw [handle_event_processed]
  split_ifs <;> simp_all [List.contains_cons]

/-- From a state that has already processed the shared fingerprint, a run
of events carrying that fingerprint creates no task document. -/
theorem runEvents_count_zero (dry : Bool) (k : String × Nat × ℚ) :
    ∀ (es : List FileEvent) (s : WatcherState),
      (∀ e ∈ es, keyOf e = k) → s.processed.contains k = true →
      createdCount (runEvents dry s es).2 = 0 := by
  intro es
  induction es with
  | nil => intro s _ _; simp [runEvents, createdCount]
  | cons e es ih =>
    intro s hk hmem
    have hke : keyOf e = k := hk e (List.mem_cons_self e es)
    have h1 : (handle_event dry s e).2 ≠ some .created := by
      apply handle_event_no_create_of_processed
      rw [hke]; exact hmem
    have h2 := ih (handle_event dry s e).1
      (fun e2 he2 => hk e2 (List.mem_cons_of_mem e he2))
      (handle_event_contains_mono dry s e k hmem)
    simp [runEvents, createdCount, List.countP_cons] at h2 ⊢
    exact ⟨h2, fun hcre => absurd hcre h1⟩

/-- From a state that has not yet processed the shared fingerprint, a run
of events carrying that fingerprint creates at most one task document. -/
theorem runEvents_count_le_one (dry : Bool) (k : String × Nat × ℚ) :
    ∀ (es : List FileEvent) (s : WatcherState),
      (∀ e ∈ es, keyOf e = k) → s.processed.contains k = false →
      createdCount (runEvents dry s es).2 ≤ 1 := by
  intro es
  induction es with
  | nil => intro s _ _; simp [runEvents, createdCount]
  | cons e es ih =>
    intro s hk hmem
    have hke : keyOf e = k := hk e (List.mem_cons_self e es)
    by_cases hcre : (handle_event dry s e).2 = some .created
    · have hproc : (handle_event dry s e).1.processed = keyOf e :: s.processed := by
        rw [handle_event_processed, if_pos hcre]
      have hzero := runEvents_count_zero dry k es (handle_event dry s e).1
        (fun e2 he2 => hk e2 (List.mem_cons_of_mem e he2))
        (by rw [hproc, hke]; simp [List.contains_cons])
      have hcons : createdCount (runEvents dry s (e :: es)).2
          = createdCount (runEvents dry (handle_event dry s e).1 es).2 + 1 := by
        simp [runEvents, createdCount, List.countP_cons, hcre]
      rw [hcons, hzero]
    · have hproc : (handle_event dry s e).1.processed = s.processed := by
        rw [handle_event_processed, if_neg hcre]
      have hrest := ih (handle_event dry s e).1
        (fun e2 he2 => hk e2 (List.mem_cons_of_mem e he2))
        (by rw [hproc]; exact hmem)
      have hcons : createdCount (runEvents dry s (e :: es)).2
          = createdCount (runEvents dry (handle_event dry s e).1 es).2 := by
        simp [runEvents, createdCount, List.countP_cons, hcre]
      rw [hcons]; exact hrest

/-- process_file never reports a dedup skip when the fingerprint is not in
the processed set and the extension is supported. -/
theorem process_file_not_skipped (dry : Bool) (s : WatcherState) (e : FileEvent)
    (hsup : suffixSupported e.path = true)
    (hni : s.processed.contains (keyOf e) = false) :
    (process_file dry s e).2 ≠ .skipped := by
  unfold process_file
  split_ifs <;> simp_all

/-- C3: for every sequence of created, modified or poll events carrying
the same path, size, mtime fingerprint (with no injected I/O failure, so
that a created outcome is the only one that writes a task document), a
live detector run from a state not yet holding that fingerprint creates at
most one task document; an accepted event (one worked into a created
outcome) adds the fingerprint to the processed set; and from any state
already holding the fingerprint, a further event with that fingerprint
yields no created outcome and leaves the processed set unchanged — so the
first accepted event is the only one that creates a task and every later
event on the fingerprint is a no-op. -/
theorem dedup_single_task_creation
    (p : String) (sz : Nat) (mt : ℚ) (es : List FileEvent) (s0 : WatcherState)
    (hfp : ∀ e ∈ es, keyOf e = (p, sz, mt) ∧ e.failAt = none)
    (h0 : s0.processed.contains (p, sz, mt) = false)
    (s1 : WatcherState) (e1 : FileEvent) (hk1 : keyOf e1 = (p, sz, mt))
    (hmem : s1.processed.contains (p, sz, mt) = true)
    (s2 : WatcherState) (e2 : FileEvent) (hk2 : keyOf e2 = (p, sz, mt))
    (hacc : (handle_event false s2 e2).2 = some .created) :
    createdCount (runEvents false s0 es).2 ≤ 1
    ∧ (handle_event false s2 e2).1.processed = (p, sz, mt) :: s2.processed
    ∧ (handle_event false s1 e1).2 ≠ some .created
    ∧ (handle_event false s1 e1).1.processed = s1.processed := by
  have hnc : (handle_event false s1 e1).2 ≠ some .created := by
    apply handle_event_no_create_of_processed
    rw [hk1]; exact hmem
  refine ⟨runEvents_count_le_one false (p, sz, mt) es s0 (fun e he => (hfp e he).1) h0,
    ?_, hnc, ?_⟩
  · rw [handle_event_processed, if_pos hacc, hk2]
  · rw [handle_event_processed, if_neg hnc]

def sw0 : WatcherState := { processed := [], fileTimers := [] }

def swp : WatcherState := { processed := [("a.txt", 5, (1 : ℚ))], fileTimers := [] }

def evC : FileEvent :=
  { kind := .created, path := "a.txt", size := 5, mtime := 1, time := 0,
    existsAtSettle := true, failAt := none }

def evP : FileEvent :=
  { kind := .poll, path := "a.txt", size := 5, mtime := 1, time := 10,
    existsAtSettle := true, failAt := none }

/-- Witness for C3 at a concrete two-event run over one fingerprint. -/
theorem dedup_single_task_creation_witness :
    ((∀ e ∈ [evC, evP], keyOf e = ("a.txt", 5, (1 : ℚ)) ∧ e.failAt = none)
      ∧ sw0.processed.contains ("a.txt", 5, (1 : ℚ)) = false
      ∧ keyOf evP = ("a.txt", 5, (1 : ℚ))
      ∧ swp.processed.contains ("a.txt", 5, (1 : ℚ)) = true
      ∧ keyOf evC = ("a.txt", 5, (1 : ℚ))
      ∧ (handle_event false sw0 evC).2 = some .created)
    ∧ (createdCount (runEvents false sw0 [evC, evP]).2 ≤ 1
      ∧ (handle_event false sw0 evC).1.processed = ("a.txt", 5, (1 : ℚ)) :: sw0.processed
      ∧ (handle_event false swp evP).2 ≠ some .created
      ∧ (handle_event false swp evP).1.processed = swp.processed) :=
  ⟨⟨by decide, by decide, by decide, by decide, by decide, by decide⟩,
   dedup_single_task_creation "a.txt" 5 1 [evC, evP] sw0 (by decide) (by decide)
     swp evP (by decide) (by decide) sw0 evC (by decide) (by decide)⟩

/-- C10: the fingerprint is inserted into the processed set exactly by a
completed created outcome (dry-run included); every rejection or failure
outcome leaves the processed set unchanged, so a later event with the same
fingerprint and a supported extension is worked again rather than
dedup-skipped. -/
theorem fingerprint_only_after_completion
    (dry : Bool) (s : WatcherState) (e e2 : FileEvent)
    (hni : s.processed.contains (keyOf e) = false)
    (hout : (process_file dry s e).2 ≠ .created)
    (hk2 : keyOf e2 = keyOf e)
    (hsup : suffixSupported e2.path = true) :
    ((process_file dry s e).1.processed =
      (if (process_file dry s e).2 = .created then keyOf e :: s.processed
       else s.processed))
    ∧ (process_file dry s e).1.processed = s.processed
    ∧ (process_file dry (process_file dry s e).1 e2).2 ≠ .skipped := by
  have hsame : (process_file dry s e).1.processed = s.processed := by
    rw [process_file_processed, if_neg hout]
  refine ⟨process_file_processed dry s e, hsame, ?_⟩
  apply process_file_not_skipped dry _ e2 hsup
  rw [hsame, hk2]
  exact hni

def evW : FileEvent :=
  { kind := .created, path := "a.txt", size := 5, mtime := 1, time := 0,
    existsAtSettle := true, failAt := some .writeCall }

def evW2 : FileEvent :=
  { kind := .created, path := "a.txt", size := 5, mtime := 1, time := 3,
    existsAtSettle := true, failAt := none }

/-- Witness for C10 at a concrete write-failure followed by a retry. -/
theorem fingerprint_only_after_completion_witness :
    (sw0.processed.contains (keyOf evW) = false
      ∧ (process_file false sw0 evW).2 ≠ .created
      ∧ keyOf evW2 = keyOf evW
      ∧ suffixSupported evW2.path = true)
    ∧ (((process_file false sw0 evW).1.processed =
        (if (process_file false sw0 evW).2 = .created then keyOf evW :: sw0.processed
         else sw0.processed))
      ∧ (process_file false sw0 evW).1.processed = sw0.processed
      ∧ (process_file false (process_file false sw0 evW).1 evW2).2 ≠ .skipped) :=
  ⟨⟨by decide, by decide, by decide, by decide⟩,
   fingerprint_only_after_completion false sw0 evW evW2 (by decide) (by decide)
     (by decide) (by decide)⟩

/-- Unfolding equation of handle_event for a modified event. -/
theorem handle_event_modified (dry : Bool) (s : WatcherState) (e : FileEvent)
    (hk : e.kind = .modified) :
    handle_event dry s e =
      (if !suffixSupported e.path then (s, none)
       else if 2 < e.time - (s.fileTimers.lookup e.path).getD 0 then
         runPF dry { s with fileTimers := (e.path, e.time) :: s.fileTimers } e
       else (s, none)) := by
  unfold handle_event
  rw [hk]

/-- C8: two modified events on the same path spaced at most the two-unit
debounce window apart produce at most one processed trigger; when the
first event fires (its gap from the recorded last trigger exceeds the
window) and the second is spaced beyond the window from the first, both
trigger independently. -/
theorem modify_debounce_window
    (dry : Bool) (s : WatcherState) (e1 e2 : FileEvent)
    (hk1 : e1.kind = .modified) (hk2 : e2.kind = .modified)
    (hp : e2.path = e1.path) :
    (e2.time - e1.time ≤ 2 →
      ¬((handle_event dry s e1).2.isSome = true
        ∧ (handle_event dry (handle_event dry s e1).1 e2).2.isSome = true))
    ∧ (suffixSupported e1.path = true →
      (s.fileTimers.lookup e1.path).getD 0 + 2 < e1.time →
      e1.time + 2 < e2.time →
      (handle_event dry s e1).2.isSome = true
        ∧ (handle_event dry (handle_event dry s e1).1 e2).2.isSome = true) := by
  constructor
  · intro ht hboth
    obtain ⟨ha, hb⟩ := hboth
    rw [handle_event_modified dry s e1 hk1] at ha
    by_cases hs1 : (!suffixSupported e1.path) = true
    · rw [if_pos hs1] at ha; simp at ha
    · rw [if_neg hs1] at ha
      by_cases hf1 : 2 < e1.time - (s.fileTimers.lookup e1.path).getD 0
      · have htim : (handle_event dry s e1).1.fileTimers
            = (e1.path, e1.time) :: s.fileTimers := by
          rw [handle_event_modified dry s e1 hk1, if_neg hs1, if_pos hf1]
          show (process_file dry _ e1).1.fileTimers = _
          rw [process_file_timers]
        rw [handle_event_modified dry _ e2 hk2] at hb
        by_cases hs2 : (!suffixSupported e2.path) = true
        · rw [if_pos hs2] at hb; simp at hb
        · rw [if_neg hs2] at hb
          have hlook : (((handle_event dry s e1).1.fileTimers.lookup e2.path)).getD 0
              = e1.time := by
            rw [htim, hp]; simp [List.lookup]
          rw [hlook] at hb
          rw [if_neg (by linarith : ¬ 2 < e2.time - e1.time)] at hb
          simp at hb
      · rw [if_neg hf1] at ha; simp at ha
  · intro hsup hfire hgap
    have hs1 : ¬(!suffixSupported e1.path) = true := by simp [hsup]
    have hf1 : 2 < e1.time - (s.fileTimers.lookup e1.path).getD 0 := by linarith
    have htim : (handle_event dry s e1).1.fileTimers
        = (e1.path, e1.time) :: s.fileTimers := by
      rw [handle_event_modified dry s e1 hk1, if_neg hs1, if_pos hf1]
      show (process_file dry _ e1).1.fileTimers = _
      rw [process_file_timers]
    constructor
    · rw [handle_event_modified dry s e1 hk1, if_neg hs1, if_pos hf1]
      simp [runPF]
    · rw [handle_event_modified dry _ e2 hk2]
      have hs2 : ¬(!suffixSupported e2.path) = true := by simp [hp, hsup]
      have hlook : (((handle_event dry s e1).1.fileTimers.lookup e2.path)).getD 0
          = e1.time := by
        rw [htim, hp]; simp [List.lookup]
      rw [if_neg hs2, hlook, if_pos (by linarith : 2 < e2.time - e1.time)]
      simp [runPF]

def evM1 : FileEvent :=
  { kind := .modified, path := "a.txt", size := 5, mtime := 1, time := 10,
    existsAtSettle := true, failAt := none }

def evM2 : FileEvent :=
  { kind := .modified, path := "a.txt", size := 5, mtime := 1, time := 11,
    existsAtSettle := true, failAt := none }

/-- Witness for C8 at two concrete modified events one unit apart. -/
theorem modify_debounce_window_witness :
    (evM1.kind = .modified ∧ evM2.kind = .modified ∧ evM2.path = evM1.path)
    ∧ ((evM2.time - evM1.time ≤ 2 →
        ¬((handle_event false sw0 evM1).2.isSome = true
          ∧ (handle_event false (handle_event false sw0 evM1).1 evM2).2.isSome = true))
      ∧ (suffixSupported evM1.path = true →
        (sw0.fileTimers.lookup evM1.path).getD 0 + 2 < evM1.time →
        evM1.time + 2 < evM2.time →
        (handle_event false sw0 evM1).2.isSome = true
          ∧ (handle_event false (handle_event false sw0 evM1).1 evM2).2.isSome = true)) :=
  ⟨⟨by decide, by decide, by decide⟩,
   modify_debounce_window false sw0 evM1 evM2 (by decide) (by decide) (by decide)⟩

/-- C7: a task whose processing raises is caught at the per-task boundary
(orchestrator.py line 780), contributes exactly one error-log outcome, and
the tasks before and after it in the same scan are processed exactly as
they would be without it; likewise a stat failure while the detector works
one candidate is caught (filesystem_watcher.py line 196) and the following
events are handled from an unchanged state. -/
theorem per_task_fault_isolation
    (dry : Bool) (xs ys : List TaskInput) (bad : TaskInput)
    (hbr : bad.raises = true) (hbp : bad.present = true)
    (s : WatcherState) (es : List FileEvent) (ebad : FileEvent)
    (hek : ebad.kind = .created) (hesup : suffixSupported ebad.path = true)
    (hef : ebad.failAt = some .statCall) :
    scanOutcomes dry (xs ++ bad :: ys)
      = scanOutcomes dry xs
        ++ ([FsEffect.mkdir "Logs"], [], [ErrEntry.taskException]) :: scanOutcomes dry ys
    ∧ (runEvents dry s (ebad :: es)).2
      = some .statError :: (runEvents dry s es).2 := by
  constructor
  · have hbad : process_task_file dry bad
        = ([FsEffect.mkdir "Logs"], [], [.taskException]) := by
      unfold process_task_file
      rw [hbp, hbr]
      simp
    simp [scanOutcomes, hbad]
  · have hh : handle_event dry s ebad = (s, some .statError) := by
      unfold handle_event
      rw [hek]
      simp [runPF, process_file, hesup, hef]
    simp [runEvents, hh]

def taskHello : TaskInput :=
  { present := true, content := ( "hello world" ).toList,
    sourcePresent := false, sourceContent := [], raises := false }

def taskBad : TaskInput :=
  { present := true, content := [], sourcePresent := false,
    sourceContent := [], raises := true }

def evB : FileEvent :=
  { kind := .created, path := "a.txt", size := 5, mtime := 2, time := 1,
    existsAtSettle := true, failAt := some .statCall }

/-- Witness for C7 at a concrete scan and a concrete event run. -/
theorem per_task_fault_isolation_witness :
    (taskBad.raises = true ∧ taskBad.present = true
      ∧ evB.kind = .created ∧ suffixSupported evB.path = true
      ∧ evB.failAt = some .statCall)
    ∧ (scanOutcomes false ([taskHello] ++ taskBad :: [taskHello])
        = scanOutcomes false [taskHello]
          ++ ([FsEffect.mkdir "Logs"], [], [ErrEntry.taskException])
            :: scanOutcomes false [taskHello]
      ∧ (runEvents false sw0 (evB :: [evC])).2
        = some .statError :: (runEvents false sw0 [evC]).2) :=
  ⟨⟨by decide, by decide, by decide, by decide, by decide⟩,
   per_task_fault_isolation false [taskHello] [taskHello] taskBad (by decide)
     (by decide) sw0 [evC] evB (by decide) (by decide) (by decide)⟩

/-- C4 is refuted as stated at a concrete task: in dry-run mode the code
still creates directories (write_file performs its mkdir before testing
dry_run, and log_activity always makes the Logs folder), and the activity
records differ from a live run (the task_archived record is only written
live). -/
theorem dry_run_counterexample :
    ¬((process_task_file true taskHello).1.filter isMkdirEffect = []
      ∧ (process_task_file true taskHello).2.1
        = (process_task_file false taskHello).2.1) := by decide

/-- C4 (amended): in dry-run mode, processing a task writes, moves and
copies no file (only mkdir effects remain), its error records agree with a
live run, and its activity records are exactly the live records with the
task_archived entry removed; the watcher likewise performs no file write
or copy in dry-run mode. -/
theorem dry_run_no_file_mutation (t : TaskInput) (o : ProcessOut) :
    (process_task_file true t).1.filter isFileMutation = []
    ∧ (process_task_file true t).2.1
      = (process_task_file false t).2.1.filter
          (fun a => !(a.action == "task_archived"))
    ∧ (process_task_file true t).2.2 = (process_task_file false t).2.2
    ∧ process_file_effects true o = [] := by
  refine ⟨?_, ?_, ?_, ?_⟩
  · simp only [process_task_file, write_file_effects]
    split_ifs <;> simp [isFileMutation]
  · simp only [process_task_file, write_file_effects]
    split_ifs <;> simp
  · simp only [process_task_file]
    split_ifs <;> simp
  · cases o <;> rfl

def taskAbsent : TaskInput :=
  { present := false, content := [], sourcePresent := false,
    sourceContent := [], raises := false }

/-- C6 is refuted as stated at a concrete call: transitioning a task whose
document is already gone is recorded as an error (the failed read is
logged through log_error at line 645), not treated as a silent success;
it does leave the destination without a duplicate. -/
theorem idempotent_transition_counterexample :
    ¬((process_task_file false taskAbsent).2.2 = [])
    ∧ (process_task_file false taskAbsent).1.filter isFileMutation = [] := by decide

/-- C6 (amended): a transition whose source document is absent (such as a
second transition with the same handle) completes without propagating an
exception and performs no document write, move or copy, so no duplicate
document is created, but it is recorded as a failed read in the error log
(whose folder is made on the way) rather than as a success. -/
theorem idempotent_transition_amended (dry : Bool) (t : TaskInput)
    (h : t.present = false) :
    process_task_file dry t = ([FsEffect.mkdir "Logs"], [], [.readTaskFailed]) := by
  unfold process_task_file
  rw [h]
  simp

/-- Witness for amended C6 at a concrete absent task. -/
theorem idempotent_transition_amended_witness :
    taskAbsent.present = false
    ∧ process_task_file true taskAbsent
      = ([FsEffect.mkdir "Logs"], [], [.readTaskFailed]) :=
  ⟨by decide, idempotent_transition_amended true taskAbsent (by decide)⟩

def taskScenarioA : TaskInput :=
  { present := true, content := scenarioA, sourcePresent := false,
    sourceContent := [], raises := false }

/-- C1 is refuted in its entity values: on the scenario A text the first
numeric token the amount pattern finds is 2024 (inside the invoice number
INV-2024), not 750.0, and the vendor capture runs to the end of the line,
so it is Acme Corp for $750.00 rather than Acme Corp. -/
theorem scenario_a_counterexample :
    ¬((analyze_intent scenarioA).amount = some 750)
    ∧ ¬((analyze_intent scenarioA).vendor = some (( "Acme Corp" ).toList))
    ∧ (analyze_intent scenarioA).amount = some 2024
    ∧ (analyze_intent scenarioA).vendor
      = some (( "Acme Corp for $750.00" ).toList) := by decide

/-- C1 (amended): on the scenario A text the classification is a
payment_request with priority high, approval required, invoice number
INV-2024, extracted amount 2024 (the first numeric token, taken from the
invoice number) and vendor capture Acme Corp for $750.00 (the rest of the
line); routing the task live writes a plan artifact into Plans and an
email-draft artifact into Pending_Approval. -/
theorem scenario_a_amended :
    (analyze_intent scenarioA).intent = "payment_request"
    ∧ (analyze_intent scenarioA).priority = "high"
    ∧ (analyze_intent scenarioA).requiresApproval = true
    ∧ (analyze_intent scenarioA).invoiceNumber = some (( "INV-2024" ).toList)
    ∧ (analyze_intent scenarioA).amount = some 2024
    ∧ (analyze_intent scenarioA).vendor = some (( "Acme Corp for $750.00" ).toList)
    ∧ FsEffect.writeDoc "Plans" "plan" ∈ (process_task_file false taskScenarioA).1
    ∧ FsEffect.writeDoc "Pending_Approval" "email_draft"
      ∈ (process_task_file false taskScenarioA).1 := by decide

/-- C2: for content classified as a payment request, a first extracted
amount of exactly 500 leaves approval not required and priority medium
(the gate tests strictly above 500), while a first extracted amount of at
least 500.01 sets approval required and priority high. -/
theorem payment_threshold_behavior (content : List Char)
    (h : (analyze_intent content).intent = "payment_request") :
    ((findAmounts content).head?.map ratOfAmount = some 500 →
      (analyze_intent content).requiresApproval = false
        ∧ (analyze_intent content).priority = "medium")
    ∧ (∀ q : ℚ, (findAmounts content).head?.map ratOfAmount = some q →
      50001 / 100 ≤ q →
      (analyze_intent content).requiresApproval = true
        ∧ (analyze_intent content).priority = "high") := by
  by_cases he : emailReplyMatch (toLowerList content) = true
  · exfalso
    simp [analyze_intent, he] at h
  · by_cases hpm : paymentKwMatch (toLowerList content) = true
    · constructor
      · intro h500
        cases hh : (findAmounts content).head? with
        | none => rw [hh] at h500; simp at h500
        | some cap =>
          rw [hh] at h500
          have hcap : ratOfAmount cap = 500 := by simpa using h500
          constructor <;> simp [analyze_intent, he, hpm, hh, hcap, defaultResult]
      · intro q hq hge
        cases hh : (findAmounts content).head? with
        | none => rw [hh] at hq; simp at hq
        | some cap =>
          rw [hh] at hq
          have hcap : ratOfAmount cap = q := by simpa using hq
          have hlt : (500 : ℚ) < ratOfAmount cap := by rw [hcap]; linarith
          constructor <;> simp [analyze_intent, he, hpm, hh, hlt, defaultResult]
    · exfalso
      by_cases hx : extractKwMatch (toLowerList content) = true
      · simp [analyze_intent, he, hpm, hx, defaultResult] at h
      · simp [analyze_intent, he, hpm, hx, defaultResult] at h

def payText500 : List Char := ( "pay 500" ).toList

def payText501 : List Char := ( "pay 501" ).toList

/-- Witness for C2 at the concrete amounts 500 and 501. -/
theorem payment_threshold_behavior_witness :
    ((analyze_intent payText500).intent = "payment_request"
      ∧ (analyze_intent payText501).intent = "payment_request")
    ∧ ((analyze_intent payText500).requiresApproval = false
      ∧ (analyze_intent payText500).priority = "medium")
    ∧ ((analyze_intent payText501).requiresApproval = true
      ∧ (analyze_intent payText501).priority = "high") :=
  ⟨⟨by decide, by decide⟩,
   (payment_threshold_behavior payText500 (by decide)).1 (by decide),
   (payment_threshold_behavior payText501 (by decide)).2 501 (by decide) (by norm_num)⟩

def textRIE : List Char := ( "reply invoice extract" ).toList

/-- C5 is refuted as universally stated: a text holding both an invoice
keyword and an extract keyword can still match the email-reply rule, which
is tried first, so this text classifies as email_draft rather than
payment_request. -/
theorem rule_order_counterexample :
    paymentKwMatch (toLowerList textRIE) = true
    ∧ extractKwMatch (toLowerList textRIE) = true
    ∧ (analyze_intent textRIE).intent = "email_draft"
    ∧ ¬((analyze_intent textRIE).intent = "payment_request") := by decide

/-- C5 (amended): rules are tried in the fixed order email-reply, payment,
extraction, default and the first match wins; hence every text holding
both an invoice keyword and an extract keyword while not matching the
email-reply rule classifies as payment_request, not data_extraction. -/
theorem rule_order_amended (content : List Char)
    (hpm : paymentKwMatch (toLowerList content) = true)
    (_hx : extractKwMatch (toLowerList content) = true)
    (he : emailReplyMatch (toLowerList content) = false) :
    (analyze_intent content).intent = "payment_request" := by
  cases hh : (findAmounts content).head? with
  | none => simp [analyze_intent, he, hpm, hh]
  | some cap =>
    by_cases hlt : (500 : ℚ) < ratOfAmount cap
    · simp [analyze_intent, he, hpm, hh, hlt]
    · simp [analyze_intent, he, hpm, hh, hlt]

def textIE : List Char := ( "invoice extract" ).toList

/-- Witness for amended C5 at a concrete text. -/
theorem rule_order_amended_witness :
    (paymentKwMatch (toLowerList textIE) = true
      ∧ extractKwMatch (toLowerList textIE) = true
      ∧ emailReplyMatch (toLowerList textIE) = false)
    ∧ (analyze_intent textIE).intent = "payment_request" :=
  ⟨⟨by decide, by decide, by decide⟩,
   rule_order_amended textIE (by decide) (by decide) (by decide)⟩

def textRP : List Char := ( "reply pay" ).toList

/-- C9 is refuted as universally stated: a text matching a payment keyword
with no extractable amount can still match the email-reply rule, which is
tried first, so this text classifies as email_draft with approval
required rather than payment_request without approval. -/
theorem payment_no_amount_counterexample :
    paymentKwMatch (toLowerList textRP) = true
    ∧ findAmounts textRP = []
    ∧ (analyze_intent textRP).intent = "email_draft"
    ∧ (analyze_intent textRP).requiresApproval = true := by decide

/-- C9 (amended): every text matching a payment keyword, holding no
substring matched by the amount pattern, and not matching the email-reply
rule classifies as payment_request with approval not required, priority
medium and no amount entity: the threshold gate is skipped when no amount
parses. -/
theorem payment_no_amount_amended (content : List Char)
    (hpm : paymentKwMatch (toLowerList content) = true)
    (ham : findAmounts content = [])
    (he : emailReplyMatch (toLowerList content) = false) :
    (analyze_intent content).intent = "payment_request"
    ∧ (analyze_intent content).requiresApproval = false
    ∧ (analyze_intent content).priority = "medium"
    ∧ (analyze_intent content).amount = none := by
  simp [analyze_intent, he, hpm, ham, defaultResult]

def textPayNow : List Char := ( "pay now" ).toList

/-- Witness for amended C9 at a concrete text. -/
theorem payment_no_amount_amended_witness :
    (paymentKwMatch (toLowerList textPayNow) = true
      ∧ findAmounts textPayNow = []
      ∧ emailReplyMatch (toLowerList textPayNow) = false)
    ∧ ((analyze_intent textPayNow).intent = "payment_request"
      ∧ (analyze_intent textPayNow).requiresApproval = false
      ∧ (analyze_intent textPayNow).priority = "medium"
      ∧ (analyze_intent textPayNow).amount = none) :=
  ⟨⟨by decide, by decide, by decide⟩,
   payment_no_amount_amended textPayNow (by decide) (by decide) (by decide)⟩

end Bronze
